import Mathlib

/-!
Verification of the StackStorm garbage-collector service
(`st2reactor/st2reactor/garbage_collector/base.py`) and of the fabric-runner
result aggregator contract (`st2actions/tests/test_fabricrunner.py`).

Shallow embedding conventions:
- Timestamps are integers (seconds); `datetime.timedelta(days=n)` becomes
  `n * 86400`; `get_datetime_utc_now()` is an explicit `now : Int` parameter.
- Python exceptions become `Except GCError`; a raised `ValueError` that the
  surrounding code does not catch propagates through `Except.bind`.
- Observable actions (collaborator purge invocations, sleeps, skip decisions,
  caught-and-logged collaborator failures) are recorded as a trace of
  `GCEvent`s, so that theorems can speak about what a pass does.
- External collaborators (`purge_executions`, `purge_execution_output_objects`,
  `purge_trigger_instances`, `purge_inquiries`) are oracles: a function
  `fails : GCCategory → Bool` says whether a given collaborator call raises.
-/

/-- The four garbage-collection categories visited by a collection pass. -/
inductive GCCategory
  | executions
  | executionOutput
  | triggerInstances
  | inquiries
  deriving DecidableEq, Repr

/-- Modelled from the spec: the constants `MINIMUM_TTL_DAYS` and
`MINIMUM_TTL_DAYS_EXECUTION_OUTPUT` live in `st2common.constants.garbage_collection`,
which is not under src/. The spec fixes only their shape: a positive floor shared
by executions and trigger-instances, and a separate, smaller, positive floor for
execution output. The values below satisfy these constraints. -/
def MINIMUM_TTL_DAYS : Int := 7

/-- Modelled from the spec: the smaller floor for execution-output objects
(see `MINIMUM_TTL_DAYS`). -/
def MINIMUM_TTL_DAYS_EXECUTION_OUTPUT : Int := 1

/-- Embedding of `datetime.timedelta(days=n)` as a count of seconds. -/
def timedeltaDays (n : Int) : Int := n * 86400

/-- Configuration state of `GarbageCollectorService` after `__init__` has
copied the config values onto the instance (TTLs in days, delays in seconds). -/
structure GCConfig where
  collection_interval : Int
  sleep_delay : Int
  action_executions_ttl : Int
  action_executions_output_ttl : Int
  trigger_instances_ttl : Int
  purge_inquiries : Bool
  deriving DecidableEq, Repr

/-- Errors raised by the service itself (Python `ValueError` / `AssertionError`). -/
inductive GCError
  | ttlBelowMinimum (c : GCCategory) (minimum : Int)
  | minimumTTLViolation (c : GCCategory)
  | assertionFailure (c : GCCategory)
  deriving DecidableEq, Repr

/-- Observable events of a collection pass. `purgeInvoked c ts` records that the
purge collaborator for TTL-bearing category `c` was called with cutoff `ts`;
`inquiriesTimeoutInvoked` records the (cutoff-free) inquiries call;
`collabFailureLogged c` records a collaborator exception caught and logged at
category scope; `interCategorySleep d` records `eventlet.sleep(self._sleep_delay)`;
`skippedCategory c` records the debug-level skip of a disabled category. -/
inductive GCEvent
  | purgeInvoked (c : GCCategory) (timestamp : Int)
  | inquiriesTimeoutInvoked
  | collabFailureLogged (c : GCCategory)
  | interCategorySleep (delay : Int)
  | skippedCategory (c : GCCategory)
  deriving DecidableEq, Repr

/-- Embedding of `GarbageCollectorService._validate_ttl_values`. A Python check
`if self._x_ttl and self._x_ttl < M` is truthiness on an integer, i.e.
`x ≠ 0 ∧ x < M`; the three checks run in source order (executions, then
trigger instances, then execution output) and the first violation raises. -/
def validate_ttl_values (cfg : GCConfig) : Except GCError Unit :=
  if cfg.action_executions_ttl ≠ 0 ∧ cfg.action_executions_ttl < MINIMUM_TTL_DAYS then
    .error (.ttlBelowMinimum .executions MINIMUM_TTL_DAYS)
  else if cfg.trigger_instances_ttl ≠ 0 ∧ cfg.trigger_instances_ttl < MINIMUM_TTL_DAYS then
    .error (.ttlBelowMinimum .triggerInstances MINIMUM_TTL_DAYS)
  else if cfg.action_executions_output_ttl ≠ 0 ∧
      cfg.action_executions_output_ttl < MINIMUM_TTL_DAYS_EXECUTION_OUTPUT then
    .error (.ttlBelowMinimum .executionOutput MINIMUM_TTL_DAYS_EXECUTION_OUTPUT)
  else
    .ok ()

/-- Embedding of `GarbageCollectorService.__init__`: record the configuration
values, then run `_validate_ttl_values`; a validation error aborts construction. -/
def initGarbageCollectorService (collection_interval sleep_delay : Int)
    (action_executions_ttl action_executions_output_ttl trigger_instances_ttl : Int)
    (purge_inquiries : Bool) : Except GCError GCConfig :=
  let cfg : GCConfig :=
    ⟨collection_interval, sleep_delay, action_executions_ttl,
     action_executions_output_ttl, trigger_instances_ttl, purge_inquiries⟩
  do
    validate_ttl_values cfg
    pure cfg

/-- Embedding of `GarbageCollectorService._purge_action_executions`:
compute `timestamp = utc_now - timedelta(days=ttl)`; raise `ValueError` when
`timestamp > utc_now - timedelta(days=MINIMUM_TTL_DAYS)`; `assert timestamp < utc_now`;
then call the collaborator `purge_executions` inside try/except — a collaborator
exception is caught and logged, and the function still returns normally. -/
def purge_action_executions (ttl now : Int) (collabFails : Bool) :
    Except GCError (List GCEvent) :=
  let timestamp := now - timedeltaDays ttl
  if timestamp > now - timedeltaDays MINIMUM_TTL_DAYS then
    .error (.minimumTTLViolation .executions)
  else if timestamp < now then
    .ok ([GCEvent.purgeInvoked .executions timestamp] ++
      (if collabFails then [GCEvent.collabFailureLogged .executions] else []))
  else
    .error (.assertionFailure .executions)

/-- Embedding of `GarbageCollectorService._purge_action_executions_output`
(same shape as `purge_action_executions`, with the execution-output floor). -/
def purge_action_executions_output (ttl now : Int) (collabFails : Bool) :
    Except GCError (List GCEvent) :=
  let timestamp := now - timedeltaDays ttl
  if timestamp > now - timedeltaDays MINIMUM_TTL_DAYS_EXECUTION_OUTPUT then
    .error (.minimumTTLViolation .executionOutput)
  else if timestamp < now then
    .ok ([GCEvent.purgeInvoked .executionOutput timestamp] ++
      (if collabFails then [GCEvent.collabFailureLogged .executionOutput] else []))
  else
    .error (.assertionFailure .executionOutput)

/-- Embedding of `GarbageCollectorService._purge_trigger_instances`
(same shape as `purge_action_executions`, shared floor `MINIMUM_TTL_DAYS`). -/
def purge_trigger_instances_f (ttl now : Int) (collabFails : Bool) :
    Except GCError (List GCEvent) :=
  let timestamp := now - timedeltaDays ttl
  if timestamp > now - timedeltaDays MINIMUM_TTL_DAYS then
    .error (.minimumTTLViolation .triggerInstances)
  else if timestamp < now then
    .ok ([GCEvent.purgeInvoked .triggerInstances timestamp] ++
      (if collabFails then [GCEvent.collabFailureLogged .triggerInstances] else []))
  else
    .error (.assertionFailure .triggerInstances)

/-- Embedding of `GarbageCollectorService._timeout_inquiries`: call the
collaborator `purge_inquiries` inside try/except; never raises. -/
def timeout_inquiries (collabFails : Bool) : List GCEvent :=
  [GCEvent.inquiriesTimeoutInvoked] ++
    (if collabFails then [GCEvent.collabFailureLogged .inquiries] else [])

/-- The enabling gate `_perform_garbage_collection` applies to each category:
the three TTL-bearing categories are visited when their TTL is at least the
category floor, inquiries when the `purge_inquiries` flag is set. -/
def categoryEnabled (cfg : GCConfig) : GCCategory → Bool
  | .executions => cfg.action_executions_ttl ≥ MINIMUM_TTL_DAYS
  | .executionOutput =>
      cfg.action_executions_output_ttl ≥ MINIMUM_TTL_DAYS_EXECUTION_OUTPUT
  | .triggerInstances => cfg.trigger_instances_ttl ≥ MINIMUM_TTL_DAYS
  | .inquiries => cfg.purge_inquiries

/-- One category's step of `_perform_garbage_collection`: if the gate holds,
run the matching purge routine and then `eventlet.sleep(self._sleep_delay)`
(an error raised by the routine propagates, skipping the sleep); otherwise log
the debug-level skip. -/
def categoryCollection (cfg : GCConfig) (now : Int) (fails : GCCategory → Bool) :
    GCCategory → Except GCError (List GCEvent)
  | .executions =>
      if cfg.action_executions_ttl ≥ MINIMUM_TTL_DAYS then do
        let evs ← purge_action_executions cfg.action_executions_ttl now (fails .executions)
        pure (evs ++ [GCEvent.interCategorySleep cfg.sleep_delay])
      else
        pure [GCEvent.skippedCategory .executions]
  | .executionOutput =>
      if cfg.action_executions_output_ttl ≥ MINIMUM_TTL_DAYS_EXECUTION_OUTPUT then do
        let evs ← purge_action_executions_output cfg.action_executions_output_ttl now
          (fails .executionOutput)
        pure (evs ++ [GCEvent.interCategorySleep cfg.sleep_delay])
      else
        pure [GCEvent.skippedCategory .executionOutput]
  | .triggerInstances =>
      if cfg.trigger_instances_ttl ≥ MINIMUM_TTL_DAYS then do
        let evs ← purge_trigger_instances_f cfg.trigger_instances_ttl now
          (fails .triggerInstances)
        pure (evs ++ [GCEvent.interCategorySleep cfg.sleep_delay])
      else
        pure [GCEvent.skippedCategory .triggerInstances]
  | .inquiries =>
      if cfg.purge_inquiries then
        pure (timeout_inquiries (fails .inquiries) ++
          [GCEvent.interCategorySleep cfg.sleep_delay])
      else
        pure [GCEvent.skippedCategory .inquiries]

/-- Embedding of `GarbageCollectorService._perform_garbage_collection`: the
four categories are visited in fixed source order (executions, execution
output, trigger instances, inquiries). There is no exception handling at this
level, so an error raised by a category's routine propagates and aborts the
pass (categories after it are not visited). -/
def perform_garbage_collection (cfg : GCConfig) (now : Int)
    (fails : GCCategory → Bool) : Except GCError (List GCEvent) := do
  let e1 ← categoryCollection cfg now fails .executions
  let e2 ← categoryCollection cfg now fails .executionOutput
  let e3 ← categoryCollection cfg now fails .triggerInstances
  let e4 ← categoryCollection cfg now fails .inquiries
  pure (e1 ++ e2 ++ e3 ++ e4)

/-- Embedding of `GarbageCollectorService.handle_sigusr2`: the SIGUSR2 handler
logs and then calls `self._perform_garbage_collection()` directly. -/
def handle_sigusr2 (cfg : GCConfig) (now : Int) (fails : GCCategory → Bool) :
    Except GCError (List GCEvent) :=
  perform_garbage_collection cfg now fails

/-- Mutable state of the running service: the configuration (never mutated
after `__init__`) and the `self._running` flag. -/
structure GCState where
  cfg : GCConfig
  running : Bool
  deriving DecidableEq, Repr

/-- Embedding of `GarbageCollectorService.shutdown`: sets `self._running = False`
and touches nothing else. -/
def shutdown (s : GCState) : GCState :=
  ⟨s.cfg, false⟩

/-- Embedding of `GarbageCollectorService._main_loop`, indexed by fuel (number
of remaining iterations to consider). The `while self._running` condition is the
only place the flag is read; the loop body (one full pass, then the inter-pass
sleep) never consults it. An asynchronous `shutdown()` arriving during
iteration `k` is modelled by `stopDuring k = true`: the flag flips to false,
which the loop can only observe at the next `while` check. `nows k` and
`fails k` give the wall clock and the collaborator outcomes of iteration `k`.
The result is the list of per-iteration pass traces; a pass error escapes the
loop (it is caught in `run`, outside this function). -/
def main_loop (cfg : GCConfig) (nows : Nat → Int)
    (fails : Nat → GCCategory → Bool) (stopDuring : Nat → Bool) :
    Nat → Nat → Bool → List (List GCEvent)
  | 0, _, _ => []
  | fuel + 1, k, running =>
    if running then
      match perform_garbage_collection cfg (nows k) (fails k) with
      | .ok evs =>
          evs :: main_loop cfg nows fails stopDuring fuel (k + 1) (!stopDuring k)
      | .error _ => []
    else
      []

/-- Overall execution verdict of a fan-out action, mirroring
`ACTIONEXEC_STATUS_SUCCEEDED` / `ACTIONEXEC_STATUS_FAILED`. -/
inductive ActionExecStatus
  | succeeded
  | failed
  deriving DecidableEq, Repr

/-- Modelled from the spec: `FabricRunner._get_result_status` is not under
src/ — only its unit tests (`st2actions/tests/test_fabricrunner.py`) are.
Spec section 4.3: with allowPartialFailure true, SUCCEEDED iff at least one
target succeeded and FAILED iff every target failed; with allowPartialFailure
false, SUCCEEDED iff every target succeeded and FAILED iff any target failed.
The per-target mapping is a list of (target id, succeeded flag) pairs. -/
def get_result_status (result : List (String × Bool))
    (allowPartialFailure : Bool) : ActionExecStatus :=
  if allowPartialFailure then
    if result.any (fun p => p.2) then .succeeded else .failed
  else
    if result.all (fun p => p.2) then .succeeded else .failed

/-!
Derived characterizations used by the theorems below. `purgeCutoff`,
`categoryMinimumTTL`, `categoryPurgeEvents` and `categorySegmentSpec` are
bookkeeping over the embedded definitions; the lemmas prove that the embedded
routines compute exactly these values.
-/

/-- The cutoff timestamp a TTL-bearing category's purge routine computes
(`utc_now - datetime.timedelta(days=ttl)`); unused for inquiries. -/
def purgeCutoff (cfg : GCConfig) (now : Int) : GCCategory → Int
  | .executions => now - timedeltaDays cfg.action_executions_ttl
  | .executionOutput => now - timedeltaDays cfg.action_executions_output_ttl
  | .triggerInstances => now - timedeltaDays cfg.trigger_instances_ttl
  | .inquiries => now

/-- Each category's minimum-TTL floor; inquiries has no TTL (0 is unused). -/
def categoryMinimumTTL : GCCategory → Int
  | .executions => MINIMUM_TTL_DAYS
  | .executionOutput => MINIMUM_TTL_DAYS_EXECUTION_OUTPUT
  | .triggerInstances => MINIMUM_TTL_DAYS
  | .inquiries => 0

/-- The events an enabled category's purge routine emits: the collaborator
invocation, followed by a logged failure when the collaborator raises. -/
def categoryPurgeEvents (cfg : GCConfig) (now : Int) (fails : GCCategory → Bool) :
    GCCategory → List GCEvent
  | .executions =>
      [GCEvent.purgeInvoked .executions (purgeCutoff cfg now .executions)] ++
        (if fails .executions then [GCEvent.collabFailureLogged .executions] else [])
  | .executionOutput =>
      [GCEvent.purgeInvoked .executionOutput (purgeCutoff cfg now .executionOutput)] ++
        (if fails .executionOutput then [GCEvent.collabFailureLogged .executionOutput] else [])
  | .triggerInstances =>
      [GCEvent.purgeInvoked .triggerInstances (purgeCutoff cfg now .triggerInstances)] ++
        (if fails .triggerInstances then [GCEvent.collabFailureLogged .triggerInstances] else [])
  | .inquiries => timeout_inquiries (fails .inquiries)

/-- The full trace segment one category contributes to a pass: purge events
plus the trailing inter-category sleep when enabled, a lone skip marker when
disabled. -/
def categorySegmentSpec (cfg : GCConfig) (now : Int) (fails : GCCategory → Bool)
    (c : GCCategory) : List GCEvent :=
  if categoryEnabled cfg c then
    categoryPurgeEvents cfg now fails c ++ [GCEvent.interCategorySleep cfg.sleep_delay]
  else
    [GCEvent.skippedCategory c]

/-- A category counts as visited by a pass trace when the trace records either
its skip decision or its purge invocation. -/
def categoryVisited (evs : List GCEvent) (c : GCCategory) : Prop :=
  GCEvent.skippedCategory c ∈ evs ∨
    (∃ ts, GCEvent.purgeInvoked c ts ∈ evs) ∨
    (c = .inquiries ∧ GCEvent.inquiriesTimeoutInvoked ∈ evs)

/-- With TTL at or above the floor, `_purge_action_executions` passes both
sanity checks and invokes the collaborator with cutoff `now - ttl` days. -/
theorem purge_action_executions_ok (ttl now : Int) (b : Bool)
    (h : MINIMUM_TTL_DAYS ≤ ttl) :
    purge_action_executions ttl now b =
      .ok ([GCEvent.purgeInvoked .executions (now - timedeltaDays ttl)] ++
        (if b then [GCEvent.collabFailureLogged .executions] else [])) := by
  simp only [MINIMUM_TTL_DAYS] at h
  simp only [purge_action_executions, timedeltaDays, MINIMUM_TTL_DAYS]
  rw [if_neg (by omega), if_pos (by omega)]

/-- With TTL strictly below the floor, `_purge_action_executions` raises the
minimum-TTL `ValueError` before any collaborator call. -/
theorem purge_action_executions_rejected (ttl now : Int) (b : Bool)
    (h : ttl < MINIMUM_TTL_DAYS) :
    purge_action_executions ttl now b = .error (.minimumTTLViolation .executions) := by
  simp only [MINIMUM_TTL_DAYS] at h
  simp only [purge_action_executions, timedeltaDays, MINIMUM_TTL_DAYS]
  rw [if_pos (by omega)]

/-- Output-object analogue of `purge_action_executions_ok`. -/
theorem purge_action_executions_output_ok (ttl now : Int) (b : Bool)
    (h : MINIMUM_TTL_DAYS_EXECUTION_OUTPUT ≤ ttl) :
    purge_action_executions_output ttl now b =
      .ok ([GCEvent.purgeInvoked .executionOutput (now - timedeltaDays ttl)] ++
        (if b then [GCEvent.collabFailureLogged .executionOutput] else [])) := by
  simp only [MINIMUM_TTL_DAYS_EXECUTION_OUTPUT] at h
  simp only [purge_action_executions_output, timedeltaDays,
    MINIMUM_TTL_DAYS_EXECUTION_OUTPUT]
  rw [if_neg (by omega), if_pos (by omega)]

/-- Output-object analogue of `purge_action_executions_rejected`. -/
theorem purge_action_executions_output_rejected (ttl now : Int) (b : Bool)
    (h : ttl < MINIMUM_TTL_DAYS_EXECUTION_OUTPUT) :
    purge_action_executions_output ttl now b =
      .error (.minimumTTLViolation .executionOutput) := by
  simp only [MINIMUM_TTL_DAYS_EXECUTION_OUTPUT] at h
  simp only [purge_action_executions_output, timedeltaDays,
    MINIMUM_TTL_DAYS_EXECUTION_OUTPUT]
  rw [if_pos (by omega)]

/-- Trigger-instance analogue of `purge_action_executions_ok`. -/
theorem purge_trigger_instances_ok (ttl now : Int) (b : Bool)
    (h : MINIMUM_TTL_DAYS ≤ ttl) :
    purge_trigger_instances_f ttl now b =
      .ok ([GCEvent.purgeInvoked .triggerInstances (now - timedeltaDays ttl)] ++
        (if b then [GCEvent.collabFailureLogged .triggerInstances] else [])) := by
  simp only [MINIMUM_TTL_DAYS] at h
  simp only [purge_trigger_instances_f, timedeltaDays, MINIMUM_TTL_DAYS]
  rw [if_neg (by omega), if_pos (by omega)]

/-- Trigger-instance analogue of `purge_action_executions_rejected`. -/
theorem purge_trigger_instances_rejected (ttl now : Int) (b : Bool)
    (h : ttl < MINIMUM_TTL_DAYS) :
    purge_trigger_instances_f ttl now b =
      .error (.minimumTTLViolation .triggerInstances) := by
  simp only [MINIMUM_TTL_DAYS] at h
  simp only [purge_trigger_instances_f, timedeltaDays, MINIMUM_TTL_DAYS]
  rw [if_pos (by omega)]

/-- Computation rule for the Except monad: binding a success applies the
continuation. -/
theorem except_bind_ok {ε α β} (a : α) (f : α → Except ε β) :
    (Except.ok a >>= f : Except ε β) = f a := rfl

/-- Computation rule for the Except monad: pure is ok. -/
theorem except_pure_ok {ε α} (a : α) :
    (pure a : Except ε α) = Except.ok a := rfl

/-- Every category step of a pass completes normally, producing exactly its
segment trace: the enabling gates guarantee the purge routines are only called
with TTLs at or above their floors, where their sanity checks cannot fire. -/
theorem categoryCollection_eq (cfg : GCConfig) (now : Int)
    (fails : GCCategory → Bool) (c : GCCategory) :
    categoryCollection cfg now fails c = .ok (categorySegmentSpec cfg now fails c) := by
  cases c with
  | executions =>
    by_cases h : MINIMUM_TTL_DAYS ≤ cfg.action_executions_ttl
    · simp [categoryCollection, categorySegmentSpec, categoryEnabled, h,
        purge_action_executions_ok _ _ _ h, categoryPurgeEvents, purgeCutoff,
        except_bind_ok, except_pure_ok]
    · simp [categoryCollection, categorySegmentSpec, categoryEnabled, h,
        except_pure_ok]
  | executionOutput =>
    by_cases h : MINIMUM_TTL_DAYS_EXECUTION_OUTPUT ≤ cfg.action_executions_output_ttl
    · simp [categoryCollection, categorySegmentSpec, categoryEnabled, h,
        purge_action_executions_output_ok _ _ _ h, categoryPurgeEvents, purgeCutoff,
        except_bind_ok, except_pure_ok]
    · simp [categoryCollection, categorySegmentSpec, categoryEnabled, h,
        except_pure_ok]
  | triggerInstances =>
    by_cases h : MINIMUM_TTL_DAYS ≤ cfg.trigger_instances_ttl
    · simp [categoryCollection, categorySegmentSpec, categoryEnabled, h,
        purge_trigger_instances_ok _ _ _ h, categoryPurgeEvents, purgeCutoff,
        except_bind_ok, except_pure_ok]
    · simp [categoryCollection, categorySegmentSpec, categoryEnabled, h,
        except_pure_ok]
  | inquiries =>
    by_cases h : cfg.purge_inquiries
    · simp [categoryCollection, categorySegmentSpec, categoryEnabled, h,
        categoryPurgeEvents, except_pure_ok]
    · simp [categoryCollection, categorySegmentSpec, categoryEnabled, h,
        except_pure_ok]

/-- A collection pass always completes normally and its trace is the
concatenation of the four category segments in fixed order. -/
theorem perform_garbage_collection_eq (cfg : GCConfig) (now : Int)
    (fails : GCCategory → Bool) :
    perform_garbage_collection cfg now fails =
      .ok (categorySegmentSpec cfg now fails .executions ++
        categorySegmentSpec cfg now fails .executionOutput ++
        categorySegmentSpec cfg now fails .triggerInstances ++
        categorySegmentSpec cfg now fails .inquiries) := by
  simp [perform_garbage_collection, categoryCollection_eq, except_bind_ok,
    except_pure_ok]

/-- Computation rule for the Except monad: binding an error short-circuits. -/
theorem except_bind_error {ε α β} (e : ε) (f : α → Except ε β) :
    (Except.error e >>= f : Except ε β) = Except.error e := rfl

/-- An if-then-else over the two verdicts equals a given verdict exactly
according to its condition. -/
theorem verdict_if_eq (c : Bool) :
    ((if c then ActionExecStatus.succeeded else .failed) = .succeeded ↔ c = true) ∧
    ((if c then ActionExecStatus.succeeded else .failed) = .failed ↔ c = false) := by
  cases c <;> simp

/-- The aggregator result only depends on which flags appear: permuting the
target list leaves both the any- and the all-reduction unchanged. -/
theorem get_result_status_perm (result result2 : List (String × Bool)) (b : Bool)
    (hperm : result.Perm result2) :
    get_result_status result b = get_result_status result2 b := by
  have hany : result.any (fun p => p.2) = result2.any (fun p => p.2) := by
    rw [Bool.eq_iff_iff]
    simp only [List.any_eq_true]
    constructor
    · rintro ⟨x, hx, hp⟩
      exact ⟨x, hperm.mem_iff.mp hx, hp⟩
    · rintro ⟨x, hx, hp⟩
      exact ⟨x, hperm.mem_iff.mpr hx, hp⟩
  have hall : result.all (fun p => p.2) = result2.all (fun p => p.2) := by
    rw [Bool.eq_iff_iff]
    simp only [List.all_eq_true]
    constructor
    · intro h x hx
      exact h x (hperm.mem_iff.mpr hx)
    · intro h x hx
      exact h x (hperm.mem_iff.mp hx)
  rw [get_result_status, get_result_status, hany, hall]

/-- The spec-modelled aggregator reproduces all ten outcome vectors exercised
by `TestFabricRunnerResultStatus` in `st2actions/tests/test_fabricrunner.py`. -/
theorem get_result_status_matches_unit_tests :
    get_result_status [("1", true), ("2", true), ("3", true)] true = .succeeded ∧
    get_result_status [("1", false), ("2", true), ("3", false)] true = .succeeded ∧
    get_result_status [("1", true), ("2", false), ("3", false)] true = .succeeded ∧
    get_result_status [("1", false), ("2", false), ("3", true)] true = .succeeded ∧
    get_result_status [("1", false), ("2", false), ("3", false)] true = .failed ∧
    get_result_status [("1", true), ("2", true), ("3", true)] false = .succeeded ∧
    get_result_status [("1", false), ("2", true), ("3", false)] false = .failed ∧
    get_result_status [("1", true), ("2", false), ("3", false)] false = .failed ∧
    get_result_status [("1", false), ("2", false), ("3", true)] false = .failed ∧
    get_result_status [("1", false), ("2", false), ("3", false)] false = .failed := by
  decide

/-- C2: for every non-empty mapping of target ids to succeeded booleans, the
aggregator with allowPartialFailure true returns SUCCEEDED iff at least one
target succeeded and FAILED iff every target failed; with allowPartialFailure
false it returns SUCCEEDED iff every target succeeded and FAILED iff any
target failed; it always returns exactly one of these two values and is
order-independent over its input. -/
theorem c2_result_aggregator_contract (result : List (String × Bool)) (b : Bool)
    (hne : result ≠ []) (hkeys : (result.map Prod.fst).Nodup) :
    (get_result_status result true = .succeeded ↔ ∃ p ∈ result, p.2 = true) ∧
    (get_result_status result true = .failed ↔ ∀ p ∈ result, p.2 = false) ∧
    (get_result_status result false = .succeeded ↔ ∀ p ∈ result, p.2 = true) ∧
    (get_result_status result false = .failed ↔ ∃ p ∈ result, p.2 = false) ∧
    (get_result_status result b = .succeeded ∨ get_result_status result b = .failed) ∧
    (∀ result2, result.Perm result2 →
      get_result_status result b = get_result_status result2 b) := by
  refine ⟨?_, ?_, ?_, ?_, ?_, fun r2 hp => get_result_status_perm result r2 b hp⟩
  · rw [get_result_status, if_pos rfl, (verdict_if_eq _).1, List.any_eq_true]
  · rw [get_result_status, if_pos rfl, (verdict_if_eq _).2, List.any_eq_false]
    constructor
    · intro h p hp
      simpa using h p hp
    · intro h p hp
      simpa using h p hp
  · rw [get_result_status, if_neg (by simp), (verdict_if_eq _).1, List.all_eq_true]
  · rw [get_result_status, if_neg (by simp), (verdict_if_eq _).2, List.all_eq_false]
    constructor
    · rintro ⟨x, hx, hp⟩
      exact ⟨x, hx, by simpa using hp⟩
    · rintro ⟨x, hx, hp⟩
      exact ⟨x, hx, by simpa using hp⟩
  · rw [get_result_status]
    split
    · split
      · exact Or.inl rfl
      · exact Or.inr rfl
    · split
      · exact Or.inl rfl
      · exact Or.inr rfl

/-- Instantiation of the aggregator contract on the mixed-outcome batch from
the repository's unit tests. -/
theorem c2_result_aggregator_contract_witness :
    ([(("1" : String), false), ("2", true), ("3", false)] ≠
        ([] : List (String × Bool))) ∧
      get_result_status [("1", false), ("2", true), ("3", false)] true =
        .succeeded := by
  have h := c2_result_aggregator_contract
    [("1", false), ("2", true), ("3", false)] true (by decide)
    (by decide)
  exact ⟨by decide, h.1.mpr ⟨("2", true), by decide, rfl⟩⟩

/-- Validation succeeds exactly when each TTL-bearing category is either
disabled (zero) or at or above its floor. -/
theorem validate_ttl_values_ok_iff (cfg : GCConfig) :
    validate_ttl_values cfg = .ok () ↔
      ((cfg.action_executions_ttl = 0 ∨
          MINIMUM_TTL_DAYS ≤ cfg.action_executions_ttl) ∧
       (cfg.action_executions_output_ttl = 0 ∨
          MINIMUM_TTL_DAYS_EXECUTION_OUTPUT ≤ cfg.action_executions_output_ttl) ∧
       (cfg.trigger_instances_ttl = 0 ∨
          MINIMUM_TTL_DAYS ≤ cfg.trigger_instances_ttl)) := by
  simp only [validate_ttl_values, MINIMUM_TTL_DAYS, MINIMUM_TTL_DAYS_EXECUTION_OUTPUT]
  split_ifs with h1 h2 h3 <;> simp <;> omega

/-- Construction runs validation on the recorded configuration: a validation
error aborts it unchanged, success returns the configuration record. -/
theorem initGarbageCollectorService_eq (ci sd a o t : Int) (pi : Bool) :
    initGarbageCollectorService ci sd a o t pi =
      (match validate_ttl_values ⟨ci, sd, a, o, t, pi⟩ with
        | .ok _ => .ok (⟨ci, sd, a, o, t, pi⟩ : GCConfig)
        | .error e => .error e) := by
  simp only [initGarbageCollectorService]
  cases h : validate_ttl_values ⟨ci, sd, a, o, t, pi⟩ <;>
    simp [h, except_bind_ok, except_bind_error, except_pure_ok]

/-- C3: at construction, for each TTL-bearing category, a nonzero TTL strictly
below that category's floor (executions and trigger instances share
MINIMUM_TTL_DAYS; execution output has the smaller
MINIMUM_TTL_DAYS_EXECUTION_OUTPUT) makes construction fail with a
configuration error naming the offending category and required minimum, while
zero or at-least-minimum TTLs in all three categories make construction
succeed. -/
theorem c3_construction_ttl_validation (ci sd a o t : Int) (pi : Bool) :
    ((∃ cfg, initGarbageCollectorService ci sd a o t pi = .ok cfg) ↔
      ((a = 0 ∨ MINIMUM_TTL_DAYS ≤ a) ∧
       (o = 0 ∨ MINIMUM_TTL_DAYS_EXECUTION_OUTPUT ≤ o) ∧
       (t = 0 ∨ MINIMUM_TTL_DAYS ≤ t))) ∧
    (a ≠ 0 ∧ a < MINIMUM_TTL_DAYS →
      initGarbageCollectorService ci sd a o t pi =
        .error (.ttlBelowMinimum .executions MINIMUM_TTL_DAYS)) ∧
    ((a = 0 ∨ MINIMUM_TTL_DAYS ≤ a) → t ≠ 0 ∧ t < MINIMUM_TTL_DAYS →
      initGarbageCollectorService ci sd a o t pi =
        .error (.ttlBelowMinimum .triggerInstances MINIMUM_TTL_DAYS)) ∧
    ((a = 0 ∨ MINIMUM_TTL_DAYS ≤ a) → (t = 0 ∨ MINIMUM_TTL_DAYS ≤ t) →
      o ≠ 0 ∧ o < MINIMUM_TTL_DAYS_EXECUTION_OUTPUT →
      initGarbageCollectorService ci sd a o t pi =
        .error (.ttlBelowMinimum .executionOutput
          MINIMUM_TTL_DAYS_EXECUTION_OUTPUT)) := by
  rw [initGarbageCollectorService_eq]
  refine ⟨?_, ?_, ?_, ?_⟩
  · constructor
    · rintro ⟨cfg, hcfg⟩
      cases h : validate_ttl_values ⟨ci, sd, a, o, t, pi⟩ with
      | error e => rw [h] at hcfg; exact absurd hcfg (by simp)
      | ok u =>
        cases u
        exact (validate_ttl_values_ok_iff ⟨ci, sd, a, o, t, pi⟩).mp h
    · intro hcond
      rw [(validate_ttl_values_ok_iff ⟨ci, sd, a, o, t, pi⟩).mpr hcond]
      exact ⟨⟨ci, sd, a, o, t, pi⟩, rfl⟩
  · intro h
    have : validate_ttl_values ⟨ci, sd, a, o, t, pi⟩ =
        .error (.ttlBelowMinimum .executions MINIMUM_TTL_DAYS) := by
      simp only [validate_ttl_values]
      exact if_pos h
    rw [this]
  · intro ha h
    have : validate_ttl_values ⟨ci, sd, a, o, t, pi⟩ =
        .error (.ttlBelowMinimum .triggerInstances MINIMUM_TTL_DAYS) := by
      simp only [validate_ttl_values]
      rw [if_neg (by simp only [MINIMUM_TTL_DAYS] at ha ⊢; omega), if_pos h]
    rw [this]
  · intro ha ht h
    have : validate_ttl_values ⟨ci, sd, a, o, t, pi⟩ =
        .error (.ttlBelowMinimum .executionOutput
          MINIMUM_TTL_DAYS_EXECUTION_OUTPUT) := by
      simp only [validate_ttl_values]
      rw [if_neg (by simp only [MINIMUM_TTL_DAYS] at ha ⊢; omega),
        if_neg (by simp only [MINIMUM_TTL_DAYS] at ht ⊢; omega), if_pos h]
    rw [this]

/-- Instantiation of the construction contract: a 3-day executions TTL is
nonzero and below the 7-day floor, so construction fails naming executions;
with all TTLs disabled or at the floor, construction succeeds. -/
theorem c3_construction_ttl_validation_witness :
    (((3 : Int) ≠ 0 ∧ (3 : Int) < MINIMUM_TTL_DAYS) ∧
      initGarbageCollectorService 600 2 3 0 0 true =
        .error (.ttlBelowMinimum .executions MINIMUM_TTL_DAYS)) ∧
    (∃ cfg, initGarbageCollectorService 600 2 7 1 0 true = .ok cfg) := by
  constructor
  · exact ⟨by decide, (c3_construction_ttl_validation 600 2 3 0 0 true).2.1
      (by decide)⟩
  · exact (c3_construction_ttl_validation 600 2 7 1 0 true).1.mpr (by decide)

/-- Visitation is preserved by enlarging the trace. -/
theorem categoryVisited_mono {evs evs' : List GCEvent} (c : GCCategory)
    (hsub : ∀ e, e ∈ evs → e ∈ evs') (h : categoryVisited evs c) :
    categoryVisited evs' c := by
  unfold categoryVisited at h ⊢
  rcases h with h | ⟨ts, h⟩ | ⟨hc, h⟩
  · exact Or.inl (hsub _ h)
  · exact Or.inr (Or.inl ⟨ts, hsub _ h⟩)
  · exact Or.inr (Or.inr ⟨hc, hsub _ h⟩)

/-- Each category's segment visits that category. -/
theorem segment_visits_self (cfg : GCConfig) (now : Int)
    (fails : GCCategory → Bool) (c : GCCategory) :
    categoryVisited (categorySegmentSpec cfg now fails c) c := by
  unfold categoryVisited categorySegmentSpec
  split
  · cases c with
    | executions =>
      exact Or.inr (Or.inl ⟨purgeCutoff cfg now .executions,
        by simp [categoryPurgeEvents]⟩)
    | executionOutput =>
      exact Or.inr (Or.inl ⟨purgeCutoff cfg now .executionOutput,
        by simp [categoryPurgeEvents]⟩)
    | triggerInstances =>
      exact Or.inr (Or.inl ⟨purgeCutoff cfg now .triggerInstances,
        by simp [categoryPurgeEvents]⟩)
    | inquiries =>
      exact Or.inr (Or.inr ⟨rfl, by simp [categoryPurgeEvents, timeout_inquiries]⟩)
  · exact Or.inl (by simp)

/-- A collaborator failure in an enabled category is logged inside that
category's segment. -/
theorem collabFailure_mem_segment (cfg : GCConfig) (now : Int)
    (fails : GCCategory → Bool) (c : GCCategory)
    (hg : categoryEnabled cfg c = true) (hf : fails c = true) :
    GCEvent.collabFailureLogged c ∈ categorySegmentSpec cfg now fails c := by
  rw [categorySegmentSpec, if_pos hg]
  cases c <;> simp [categoryPurgeEvents, timeout_inquiries, hf]

/-- Any collaborator invocation recorded in a category segment carries a
cutoff at or before now minus that category's floor: the enabling gates make
later cutoffs impossible. -/
theorem segment_cutoff_bound (cfg : GCConfig) (now : Int)
    (fails : GCCategory → Bool) (c' c : GCCategory) (ts : Int)
    (h : GCEvent.purgeInvoked c ts ∈ categorySegmentSpec cfg now fails c') :
    ts ≤ now - timedeltaDays (categoryMinimumTTL c) := by
  cases c' with
  | executions =>
    rw [categorySegmentSpec] at h
    split at h
    · next hg =>
      simp only [categoryEnabled, ge_iff_le, decide_eq_true_eq,
        MINIMUM_TTL_DAYS] at hg
      simp only [categoryPurgeEvents, purgeCutoff, List.mem_append,
        List.mem_singleton, GCEvent.purgeInvoked.injEq] at h
      rcases h with (h | h) | h
      · obtain ⟨rfl, rfl⟩ := h
        simp only [categoryMinimumTTL, timedeltaDays, MINIMUM_TTL_DAYS]
        omega
      · split at h <;> simp at h
      · simp at h
    · simp at h
  | executionOutput =>
    rw [categorySegmentSpec] at h
    split at h
    · next hg =>
      simp only [categoryEnabled, ge_iff_le, decide_eq_true_eq,
        MINIMUM_TTL_DAYS_EXECUTION_OUTPUT] at hg
      simp only [categoryPurgeEvents, purgeCutoff, List.mem_append,
        List.mem_singleton, GCEvent.purgeInvoked.injEq] at h
      rcases h with (h | h) | h
      · obtain ⟨rfl, rfl⟩ := h
        simp only [categoryMinimumTTL, timedeltaDays,
          MINIMUM_TTL_DAYS_EXECUTION_OUTPUT]
        omega
      · split at h <;> simp at h
      · simp at h
    · simp at h
  | triggerInstances =>
    rw [categorySegmentSpec] at h
    split at h
    · next hg =>
      simp only [categoryEnabled, ge_iff_le, decide_eq_true_eq,
        MINIMUM_TTL_DAYS] at hg
      simp only [categoryPurgeEvents, purgeCutoff, List.mem_append,
        List.mem_singleton, GCEvent.purgeInvoked.injEq] at h
      rcases h with (h | h) | h
      · obtain ⟨rfl, rfl⟩ := h
        simp only [categoryMinimumTTL, timedeltaDays, MINIMUM_TTL_DAYS]
        omega
      · split at h <;> simp at h
      · simp at h
    · simp at h
  | inquiries =>
    rw [categorySegmentSpec] at h
    split at h
    · simp only [categoryPurgeEvents, timeout_inquiries, List.mem_append,
        List.mem_singleton] at h
      rcases h with h | h
      · split at h <;> simp at h
      · simp at h
    · simp at h

/-- The whole pass trace visits every category. -/
theorem pass_trace_visits (cfg : GCConfig) (now : Int)
    (fails : GCCategory → Bool) (c : GCCategory) :
    categoryVisited
      (categorySegmentSpec cfg now fails .executions ++
        categorySegmentSpec cfg now fails .executionOutput ++
        categorySegmentSpec cfg now fails .triggerInstances ++
        categorySegmentSpec cfg now fails .inquiries) c := by
  have hself := segment_visits_self cfg now fails c
  cases c with
  | executions =>
    exact categoryVisited_mono _ (fun e he => by simp [List.mem_append, he]) hself
  | executionOutput =>
    exact categoryVisited_mono _ (fun e he => by simp [List.mem_append, he]) hself
  | triggerInstances =>
    exact categoryVisited_mono _ (fun e he => by simp [List.mem_append, he]) hself
  | inquiries =>
    exact categoryVisited_mono _ (fun e he => by simp [List.mem_append, he]) hself

/-- Once the loop flag is false, the main loop performs no further pass. -/
theorem main_loop_stopped (cfg : GCConfig) (nows : Nat → Int)
    (fails : Nat → GCCategory → Bool) (stopDuring : Nat → Bool)
    (fuel k : Nat) :
    main_loop cfg nows fails stopDuring fuel k false = [] := by
  cases fuel <;> simp [main_loop]

/-- With the flag held true and no stop request, the loop performs exactly one
pass per fuel unit: collaborator outcomes never shorten it. -/
theorem main_loop_length (cfg : GCConfig) (nows : Nat → Int)
    (fails : Nat → GCCategory → Bool) (fuel k : Nat) :
    (main_loop cfg nows fails (fun _ => false) fuel k true).length = fuel := by
  induction fuel generalizing k with
  | zero => simp [main_loop]
  | succ n ih =>
    rw [main_loop]
    rw [perform_garbage_collection_eq]
    simp [ih]

/-- C1: a computed cutoff that violates the minimum-TTL floor makes the purge
routine raise the configuration error before any collaborator call, so nothing
is deleted for that category; and no collection pass is ever aborted by it —
for every configuration the pass completes normally with all four categories
visited (the enabling gate keeps violating cutoffs out of any pass, so the
error can only be scoped to a direct category invocation). -/
theorem c1_rejected_cutoff_category_scoped (cfg : GCConfig) (ttl now : Int)
    (b : Bool) (fails : GCCategory → Bool)
    (hviol : now - timedeltaDays ttl > now - timedeltaDays MINIMUM_TTL_DAYS) :
    purge_action_executions ttl now b =
      .error (.minimumTTLViolation .executions) ∧
    (∃ evs, perform_garbage_collection cfg now fails = .ok evs ∧
      ∀ c, categoryVisited evs c) := by
  constructor
  · apply purge_action_executions_rejected
    simp only [timedeltaDays, MINIMUM_TTL_DAYS] at hviol ⊢
    omega
  · exact ⟨_, perform_garbage_collection_eq cfg now fails,
      fun c => pass_trace_visits cfg now fails c⟩

/-- Instantiation of C1 at a 3-day TTL, whose cutoff violates the 7-day floor:
the routine errors without purging. -/
theorem c1_rejected_cutoff_category_scoped_witness :
    ((0 : Int) - timedeltaDays 3 > 0 - timedeltaDays MINIMUM_TTL_DAYS) ∧
    purge_action_executions 3 0 false =
      .error (.minimumTTLViolation .executions) := by
  have h := c1_rejected_cutoff_category_scoped ⟨600, 2, 0, 0, 0, false⟩ 3 0 false
    (fun _ => false) (by decide)
  exact ⟨by decide, h.1⟩

/-- C4 counterexample: the SIGUSR2 handler does not merely record a run-now
request — invoked once on a configuration with executions enabled, it runs a
full collection pass synchronously, its trace containing the collaborator
purge invocation. The service state has no run-now field at all. -/
theorem c4_counterexample :
    handle_sigusr2 ⟨300, 1, 8, 0, 0, false⟩ 1000000 (fun _ => false) =
      .ok [GCEvent.purgeInvoked .executions 308800,
        GCEvent.interCategorySleep 1,
        GCEvent.skippedCategory .executionOutput,
        GCEvent.skippedCategory .triggerInstances,
        GCEvent.skippedCategory .inquiries] := by
  rfl

/-- C4 amended: `handle_sigusr2` executes `_perform_garbage_collection`
directly — its behaviour is exactly one full collection pass, including the
collaborator purge invocation for every enabled category; no run-now request
is recorded and no mutual exclusion with an in-progress pass is enforced by
the code. -/
theorem c4_amended_handler_performs_pass (cfg : GCConfig) (now : Int)
    (fails : GCCategory → Bool) :
    handle_sigusr2 cfg now fails = perform_garbage_collection cfg now fails ∧
    (categoryEnabled cfg .executions = true →
      ∃ evs, handle_sigusr2 cfg now fails = .ok evs ∧
        GCEvent.purgeInvoked .executions (purgeCutoff cfg now .executions) ∈ evs) := by
  refine ⟨rfl, fun hg => ?_⟩
  refine ⟨_, by rw [handle_sigusr2, perform_garbage_collection_eq], ?_⟩
  apply List.mem_append_left
  apply List.mem_append_left
  apply List.mem_append_left
  rw [categorySegmentSpec, if_pos hg]
  simp [categoryPurgeEvents]

/-- Instantiation of the amended C4: with an 8-day executions TTL the handler's
trace contains the executions purge invocation. -/
theorem c4_amended_handler_performs_pass_witness :
    categoryEnabled ⟨300, 1, 8, 0, 0, false⟩ .executions = true ∧
    ∃ evs, handle_sigusr2 ⟨300, 1, 8, 0, 0, false⟩ 1000000 (fun _ => false) =
        .ok evs ∧
      GCEvent.purgeInvoked .executions 308800 ∈ evs := by
  obtain ⟨h1, h2⟩ := c4_amended_handler_performs_pass ⟨300, 1, 8, 0, 0, false⟩
    1000000 (fun _ => false)
  obtain ⟨evs, he, hm⟩ := h2 (by decide)
  exact ⟨by decide, evs, he, by simpa [purgeCutoff, timedeltaDays] using hm⟩

/-- C5: every collection pass completes normally no matter which collaborators
raise: the pass returns a trace, each enabled failing collaborator's exception
is caught and logged at category scope inside that trace, every category is
still visited, and the main loop performs every future pass undiminished. -/
theorem c5_collaborator_failures_isolated (cfg : GCConfig) (now : Int)
    (fails : GCCategory → Bool) (nows : Nat → Int)
    (failsN : Nat → GCCategory → Bool) (fuel k : Nat) :
    (∃ evs, perform_garbage_collection cfg now fails = .ok evs ∧
      (∀ c, categoryEnabled cfg c = true → fails c = true →
        GCEvent.collabFailureLogged c ∈ evs) ∧
      (∀ c, categoryVisited evs c)) ∧
    (main_loop cfg nows failsN (fun _ => false) fuel k true).length = fuel := by
  refine ⟨⟨_, perform_garbage_collection_eq cfg now fails, ?_,
    pass_trace_visits cfg now fails⟩, main_loop_length cfg nows failsN fuel k⟩
  intro c hg hf
  have hm := collabFailure_mem_segment cfg now fails c hg hf
  cases c with
  | executions =>
    exact List.mem_append_left _ (List.mem_append_left _
      (List.mem_append_left _ hm))
  | executionOutput =>
    exact List.mem_append_left _ (List.mem_append_left _
      (List.mem_append_right _ hm))
  | triggerInstances =>
    exact List.mem_append_left _ (List.mem_append_right _ hm)
  | inquiries =>
    exact List.mem_append_right _ hm

/-- Instantiation of C5: with the executions collaborator raising, the pass
still returns a trace that logs the failure at category scope. -/
theorem c5_collaborator_failures_isolated_witness :
    categoryEnabled ⟨600, 2, 7, 0, 0, true⟩ .executions = true ∧
    ∃ evs, perform_garbage_collection ⟨600, 2, 7, 0, 0, true⟩ 1000
        (fun _ => true) = .ok evs ∧
      GCEvent.collabFailureLogged .executions ∈ evs := by
  obtain ⟨⟨evs, h1, h2, h3⟩, h4⟩ := c5_collaborator_failures_isolated
    ⟨600, 2, 7, 0, 0, true⟩ 1000 (fun _ => true) (fun _ => 0)
    (fun _ _ => true) 3 0
  exact ⟨by decide, evs, h1, h2 .executions (by decide) rfl⟩

/-- C6 counterexample: with a trigger-instances TTL exactly at the 7-day floor,
the pass invokes the purge collaborator with cutoff 1395200 = now − 7 days,
which is not strictly earlier than now minus the minimum — the code proceeds
at equality, refuting the claimed strict bound (and the claimed rejection
whenever cutoff ≥ now − minimum). -/
theorem c6_counterexample :
    perform_garbage_collection ⟨600, 2, 0, 0, 7, false⟩ 2000000 (fun _ => false) =
      .ok [GCEvent.skippedCategory .executions,
        GCEvent.skippedCategory .executionOutput,
        GCEvent.purgeInvoked .triggerInstances 1395200,
        GCEvent.interCategorySleep 2,
        GCEvent.skippedCategory .inquiries] ∧
    ¬ ((1395200 : Int) < 2000000 - timedeltaDays MINIMUM_TTL_DAYS) := by
  exact ⟨rfl, by decide⟩

/-- C6 amended: on every pass, each recorded collaborator invocation carries a
cutoff at or before (not necessarily strictly before) now minus that
category's floor; and whenever the computed cutoff is strictly later than now
minus the floor, the routine rejects the category and the collaborator is not
invoked. -/
theorem c6_amended_cutoff_at_or_before_floor (cfg : GCConfig) (now : Int)
    (fails : GCCategory → Bool) (ttl : Int) (b : Bool) :
    (∀ evs, perform_garbage_collection cfg now fails = .ok evs →
      ∀ c ts, GCEvent.purgeInvoked c ts ∈ evs →
        ts ≤ now - timedeltaDays (categoryMinimumTTL c)) ∧
    (now - timedeltaDays ttl > now - timedeltaDays MINIMUM_TTL_DAYS →
      purge_action_executions ttl now b =
        .error (.minimumTTLViolation .executions)) ∧
    (now - timedeltaDays ttl >
        now - timedeltaDays MINIMUM_TTL_DAYS_EXECUTION_OUTPUT →
      purge_action_executions_output ttl now b =
        .error (.minimumTTLViolation .executionOutput)) ∧
    (now - timedeltaDays ttl > now - timedeltaDays MINIMUM_TTL_DAYS →
      purge_trigger_instances_f ttl now b =
        .error (.minimumTTLViolation .triggerInstances)) := by
  refine ⟨?_, ?_, ?_, ?_⟩
  · intro evs hevs c ts hmem
    rw [perform_garbage_collection_eq] at hevs
    injection hevs with hevs
    subst hevs
    rcases List.mem_append.mp hmem with hm | hm
    · rcases List.mem_append.mp hm with hm | hm
      · rcases List.mem_append.mp hm with hm | hm
        · exact segment_cutoff_bound cfg now fails .executions c ts hm
        · exact segment_cutoff_bound cfg now fails .executionOutput c ts hm
      · exact segment_cutoff_bound cfg now fails .triggerInstances c ts hm
    · exact segment_cutoff_bound cfg now fails .inquiries c ts hm
  · intro h
    apply purge_action_executions_rejected
    simp only [timedeltaDays, MINIMUM_TTL_DAYS] at h ⊢
    omega
  · intro h
    apply purge_action_executions_output_rejected
    simp only [timedeltaDays, MINIMUM_TTL_DAYS_EXECUTION_OUTPUT] at h ⊢
    omega
  · intro h
    apply purge_trigger_instances_rejected
    simp only [timedeltaDays, MINIMUM_TTL_DAYS] at h ⊢
    omega

/-- Instantiation of the amended C6: a 2-day trigger-instances TTL computes a
cutoff strictly later than now minus the floor, so the routine rejects it. -/
theorem c6_amended_cutoff_at_or_before_floor_witness :
    ((500 : Int) - timedeltaDays 2 > 500 - timedeltaDays MINIMUM_TTL_DAYS) ∧
    purge_trigger_instances_f 2 500 true =
      .error (.minimumTTLViolation .triggerInstances) := by
  have h := c6_amended_cutoff_at_or_before_floor ⟨600, 2, 0, 0, 0, false⟩ 500
    (fun _ => false) 2 true
  exact ⟨by decide, h.2.2.2 (by decide)⟩

/-- C7: a disabled category — TTL zero for the three TTL-bearing categories,
or the purge-inquiries flag false — contributes exactly its skip marker to the
pass: no purge invocation and no inter-category sleep occur for it. -/
theorem c7_disabled_category_skipped (cfg : GCConfig) (now : Int)
    (fails : GCCategory → Bool) :
    (cfg.action_executions_ttl = 0 →
      categoryCollection cfg now fails .executions =
        .ok [GCEvent.skippedCategory .executions]) ∧
    (cfg.action_executions_output_ttl = 0 →
      categoryCollection cfg now fails .executionOutput =
        .ok [GCEvent.skippedCategory .executionOutput]) ∧
    (cfg.trigger_instances_ttl = 0 →
      categoryCollection cfg now fails .triggerInstances =
        .ok [GCEvent.skippedCategory .triggerInstances]) ∧
    (cfg.purge_inquiries = false →
      categoryCollection cfg now fails .inquiries =
        .ok [GCEvent.skippedCategory .inquiries]) := by
  refine ⟨fun h => ?_, fun h => ?_, fun h => ?_, fun h => ?_⟩ <;>
    rw [categoryCollection_eq, categorySegmentSpec, if_neg] <;>
      simp [categoryEnabled, h, MINIMUM_TTL_DAYS, MINIMUM_TTL_DAYS_EXECUTION_OUTPUT]

/-- Instantiation of C7 on a configuration with everything disabled. -/
theorem c7_disabled_category_skipped_witness :
    (⟨600, 2, 0, 0, 0, false⟩ : GCConfig).action_executions_ttl = 0 ∧
    categoryCollection ⟨600, 2, 0, 0, 0, false⟩ 1000 (fun _ => false) .executions =
      .ok [GCEvent.skippedCategory .executions] ∧
    categoryCollection ⟨600, 2, 0, 0, 0, false⟩ 1000 (fun _ => false) .inquiries =
      .ok [GCEvent.skippedCategory .inquiries] := by
  obtain ⟨h1, h2, h3, h4⟩ := c7_disabled_category_skipped
    ⟨600, 2, 0, 0, 0, false⟩ 1000 (fun _ => false)
  exact ⟨rfl, h1 rfl, h4 rfl⟩

/-- C8 counterexample: with only executions enabled, the pass trace records the
inter-category sleep immediately after the purge of the last (and only)
executed category — the code sleeps after every executed category, including
the final one, refuting the claimed absence of a delay after the last. -/
theorem c8_counterexample :
    perform_garbage_collection ⟨600, 2, 7, 0, 0, false⟩ 1000000 (fun _ => false) =
      .ok [GCEvent.purgeInvoked .executions 395200,
        GCEvent.interCategorySleep 2,
        GCEvent.skippedCategory .executionOutput,
        GCEvent.skippedCategory .triggerInstances,
        GCEvent.skippedCategory .inquiries] := by
  rfl

/-- C8 amended: within a pass, each enabled category's segment ends with the
inter-category sleep regardless of collaborator outcome — including the last
executed category — and skipped categories get no sleep at all. -/
theorem c8_amended_sleep_after_each_executed (cfg : GCConfig) (now : Int)
    (fails : GCCategory → Bool) (c : GCCategory) :
    (categoryEnabled cfg c = true →
      categoryCollection cfg now fails c =
        .ok (categoryPurgeEvents cfg now fails c ++
          [GCEvent.interCategorySleep cfg.sleep_delay])) ∧
    (categoryEnabled cfg c = false →
      categoryCollection cfg now fails c =
        .ok [GCEvent.skippedCategory c]) := by
  constructor
  · intro h
    rw [categoryCollection_eq, categorySegmentSpec, if_pos h]
  · intro h
    rw [categoryCollection_eq, categorySegmentSpec, if_neg]
    simp [h]

/-- Instantiation of the amended C8: the single enabled category's segment
ends with the sleep; a disabled category's segment has none. -/
theorem c8_amended_sleep_after_each_executed_witness :
    categoryEnabled ⟨600, 2, 7, 0, 0, false⟩ .executions = true ∧
    categoryCollection ⟨600, 2, 7, 0, 0, false⟩ 1000000 (fun _ => false)
        .executions =
      .ok (categoryPurgeEvents ⟨600, 2, 7, 0, 0, false⟩ 1000000 (fun _ => false)
          .executions ++
        [GCEvent.interCategorySleep 2]) := by
  have h := (c8_amended_sleep_after_each_executed ⟨600, 2, 7, 0, 0, false⟩
    1000000 (fun _ => false) .executions).1 (by decide)
  exact ⟨by decide, h⟩

/-- C9: `shutdown` only clears the running flag (the configuration is
untouched), and a stop request delivered during iteration `k` of the main loop
does not truncate that iteration's pass: the loop still emits the complete
pass trace for `k` and exits at the next flag check, performing no further
iteration. -/
theorem c9_stop_cooperative (s : GCState) (cfg : GCConfig) (nows : Nat → Int)
    (fails : Nat → GCCategory → Bool) (stopDuring : Nat → Bool)
    (fuel k : Nat) (evs : List GCEvent)
    (hstop : stopDuring k = true)
    (hpass : perform_garbage_collection cfg (nows k) (fails k) = .ok evs) :
    (shutdown s).running = false ∧ (shutdown s).cfg = s.cfg ∧
    main_loop cfg nows fails stopDuring (fuel + 1) k true = [evs] := by
  refine ⟨rfl, rfl, ?_⟩
  simp [main_loop, hpass, hstop, main_loop_stopped]

/-- Instantiation of C9: a stop delivered during the first iteration yields
exactly one complete pass trace. -/
theorem c9_stop_cooperative_witness :
    ((fun _ => true : Nat → Bool) 0 = true) ∧
    main_loop ⟨1, 1, 0, 0, 0, false⟩ (fun _ => 0) (fun _ _ => false)
        (fun _ => true) 3 0 true =
      [[GCEvent.skippedCategory .executions,
        GCEvent.skippedCategory .executionOutput,
        GCEvent.skippedCategory .triggerInstances,
        GCEvent.skippedCategory .inquiries]] := by
  have h := c9_stop_cooperative ⟨⟨1, 1, 0, 0, 0, false⟩, true⟩
    ⟨1, 1, 0, 0, 0, false⟩ (fun _ => 0) (fun _ _ => false) (fun _ => true) 2 0
    [GCEvent.skippedCategory .executions,
      GCEvent.skippedCategory .executionOutput,
      GCEvent.skippedCategory .triggerInstances,
      GCEvent.skippedCategory .inquiries] rfl rfl
  exact ⟨rfl, h.2.2⟩

/-- C10: once validation passes, for every enabled TTL-bearing category the
per-call sanity checks can never fire: the computed cutoff is at or before now
minus the floor (so the minimum-TTL error branch is unreachable) and strictly
before now (so the assertion holds), and the routine returns normally with the
collaborator invoked at that cutoff. -/
theorem c10_sanity_checks_unreachable (cfg : GCConfig) (now : Int)
    (fails : GCCategory → Bool)
    (hvalid : validate_ttl_values cfg = .ok ()) :
    (categoryEnabled cfg .executions = true →
      now - timedeltaDays cfg.action_executions_ttl ≤
          now - timedeltaDays MINIMUM_TTL_DAYS ∧
        now - timedeltaDays cfg.action_executions_ttl < now ∧
        purge_action_executions cfg.action_executions_ttl now
            (fails .executions) =
          .ok ([GCEvent.purgeInvoked .executions
              (now - timedeltaDays cfg.action_executions_ttl)] ++
            (if fails .executions then
              [GCEvent.collabFailureLogged .executions] else []))) ∧
    (categoryEnabled cfg .executionOutput = true →
      now - timedeltaDays cfg.action_executions_output_ttl ≤
          now - timedeltaDays MINIMUM_TTL_DAYS_EXECUTION_OUTPUT ∧
        now - timedeltaDays cfg.action_executions_output_ttl < now ∧
        purge_action_executions_output cfg.action_executions_output_ttl now
            (fails .executionOutput) =
          .ok ([GCEvent.purgeInvoked .executionOutput
              (now - timedeltaDays cfg.action_executions_output_ttl)] ++
            (if fails .executionOutput then
              [GCEvent.collabFailureLogged .executionOutput] else []))) ∧
    (categoryEnabled cfg .triggerInstances = true →
      now - timedeltaDays cfg.trigger_instances_ttl ≤
          now - timedeltaDays MINIMUM_TTL_DAYS ∧
        now - timedeltaDays cfg.trigger_instances_ttl < now ∧
        purge_trigger_instances_f cfg.trigger_instances_ttl now
            (fails .triggerInstances) =
          .ok ([GCEvent.purgeInvoked .triggerInstances
              (now - timedeltaDays cfg.trigger_instances_ttl)] ++
            (if fails .triggerInstances then
              [GCEvent.collabFailureLogged .triggerInstances] else []))) := by
  refine ⟨fun hg => ?_, fun hg => ?_, fun hg => ?_⟩
  · simp only [categoryEnabled, ge_iff_le, decide_eq_true_eq] at hg
    refine ⟨?_, ?_, purge_action_executions_ok _ _ _ hg⟩ <;>
      simp only [MINIMUM_TTL_DAYS] at hg <;>
        simp only [timedeltaDays, MINIMUM_TTL_DAYS] <;> omega
  · simp only [categoryEnabled, ge_iff_le, decide_eq_true_eq] at hg
    refine ⟨?_, ?_, purge_action_executions_output_ok _ _ _ hg⟩ <;>
      simp only [MINIMUM_TTL_DAYS_EXECUTION_OUTPUT] at hg <;>
        simp only [timedeltaDays, MINIMUM_TTL_DAYS_EXECUTION_OUTPUT] <;> omega
  · simp only [categoryEnabled, ge_iff_le, decide_eq_true_eq] at hg
    refine ⟨?_, ?_, purge_trigger_instances_ok _ _ _ hg⟩ <;>
      simp only [MINIMUM_TTL_DAYS] at hg <;>
        simp only [timedeltaDays, MINIMUM_TTL_DAYS] <;> omega

/-- Instantiation of C10 on a valid configuration with all categories at their
floors. -/
theorem c10_sanity_checks_unreachable_witness :
    validate_ttl_values ⟨600, 2, 7, 1, 7, true⟩ = .ok () ∧
    purge_action_executions 7 1000000 false =
      .ok [GCEvent.purgeInvoked .executions (1000000 - timedeltaDays 7)] := by
  have h := c10_sanity_checks_unreachable ⟨600, 2, 7, 1, 7, true⟩ 1000000
    (fun _ => false) rfl
  have h1 := (h.1 (by decide)).2.2
  exact ⟨rfl, by simpa using h1⟩
